import Mathlib

/-!
Shallow embedding of the client-side task synchronization logic of the
task-tracking web application, translated from the PostgREST front-end
variant (`renderTask`, `loadTasks`, `addTask`, `completeTask` and the
list-item click handler of the main script).

The rendered task list (the sequence of `li` elements, each carrying a
`completed` class) is modelled as a list of `Task` values in display
order, and the text input field as a string.  Each network round trip is
modelled by an abstract `FetchResult` describing what the backend did:
the request failed at transport level, or a response with a status code
and a body arrived; the body in turn is malformed JSON, a JSON array of
task-shaped objects, a single task-shaped JSON object, or some other
well-formed JSON value.
-/

namespace TaskApp

/-- A task as the client renders it: the objects handled by `renderTask`
have the shape with fields `id`, `name` and `is_completed`.  The value of
`is_completed` stored here tracks the presence of the `completed` CSS
class on the corresponding list item, which is what the client displays
and reads back in its click handler. -/
structure Task where
  id : String
  name : String
  is_completed : Bool
deriving Repr, DecidableEq

/-- The body of an HTTP response, as far as the client can distinguish.
`malformed` is a body on which `response.json()` rejects; `jsonArray ts`
is a JSON array of task-shaped objects; `objectTask t` is a single
task-shaped JSON object (not wrapped in an array); `otherJson` is some
other well-formed, non-iterable JSON value (a number, boolean or null). -/
inductive JsonBody where
  | malformed : JsonBody
  | jsonArray : List Task → JsonBody
  | objectTask : Task → JsonBody
  | otherJson : JsonBody
deriving Repr, DecidableEq

/-- The outcome of one `fetch` call: either the promise rejects
(`transportError`, covering network failure) or a response arrives with
a status code and a body. -/
inductive FetchResult where
  | transportError : FetchResult
  | response : Nat → JsonBody → FetchResult
deriving Repr, DecidableEq

/-- `response.ok` of the Fetch API: the status is in the range 200-299. -/
def statusOk (s : Nat) : Bool :=
  decide (200 ≤ s ∧ s ≤ 299)

/-- Model of the JavaScript `String.prototype.trim` applied to the input
field value: drops leading and trailing whitespace characters.  Defined
over the character list of the string so that it evaluates by kernel
reduction. -/
def jsTrim (s : String) : String :=
  ⟨((s.data.dropWhile Char.isWhitespace).reverse.dropWhile Char.isWhitespace).reverse⟩

/-- The client state visible to the user: the rendered task list (the
`taskList` element, in DOM order) and the value of the `taskInput`
field. -/
structure AppState where
  taskList : List Task
  taskInput : String
deriving Repr, DecidableEq

/-- Translation of `loadTasks`.  The code fetches the collection, throws
on a non-ok status, awaits `response.json()`, then clears the list
(`taskList.innerHTML = ''`) and renders each element of the parsed array
in order.  Any exception lands in the catch block, which only logs and
alerts.  The returned boolean records whether the catch block ran.  Note
the order of operations: a transport error, a non-ok status and a JSON
parse failure all occur before the list is cleared, but a well-formed
body that is not an array makes `tasks.forEach` throw only after the
list has already been cleared. -/
def loadTasks (st : AppState) (resp : FetchResult) : AppState × Bool :=
  match resp with
  | .transportError => (st, true)
  | .response s body =>
    if statusOk s then
      match body with
      | .malformed => (st, true)
      | .jsonArray ts => (⟨ts, st.taskInput⟩, false)
      | .objectTask _ => (⟨[], st.taskInput⟩, true)
      | .otherJson => (⟨[], st.taskInput⟩, true)
    else (st, true)

/-- The observable events of one run of `addTask`, in program order:
the POST request being issued with its payload, a task being appended to
the rendered list (`renderTask` ending in `appendChild`), and the input
field being cleared. -/
inductive AddEvent where
  | requestIssued : String → Bool → AddEvent
  | taskAppended : Task → AddEvent
  | inputCleared : AddEvent
deriving Repr, DecidableEq

/-- Translation of `addTask` called through its default argument
(`taskName = taskInput.value.trim()`), as the keypress handler and the
HTML button do, recorded as its sequence of observable events.  The code
returns immediately (after an alert) when the trimmed name is empty, so
no request is issued.  Otherwise it posts the payload with the trimmed
name and `is_completed := false`; on an ok status it destructures the
parsed body as `[newTask]`, renders `newTask` and clears the input.  A
transport error or non-ok status throws before that; a malformed body
makes `response.json()` reject; a non-array body makes the array
destructuring throw a TypeError (single objects and other JSON values
are not iterable); an empty array yields an undefined `newTask`, on
which `renderTask` throws before appending anything.  In all of those
cases the catch block runs and neither the list nor the input change. -/
def addTaskEvents (st : AppState) (resp : FetchResult) : List AddEvent :=
  let taskName := jsTrim st.taskInput
  if taskName = "" then []
  else
    AddEvent.requestIssued taskName false ::
      match resp with
      | .response s (.jsonArray (t :: _)) =>
        if statusOk s then [AddEvent.taskAppended t, AddEvent.inputCleared] else []
      | _ => []

/-- Effect of a single `addTask` event on the client state.  Issuing the
request touches neither the list nor the input. -/
def applyAddEvent (st : AppState) : AddEvent → AppState
  | .requestIssued _ _ => st
  | .taskAppended t => ⟨st.taskList ++ [t], st.taskInput⟩
  | .inputCleared => ⟨st.taskList, ""⟩

/-- The client state after one run of `addTask`: its events applied in
order. -/
def addTask (st : AppState) (resp : FetchResult) : AppState :=
  (addTaskEvents st resp).foldl applyAddEvent st

/-- How one run of `addTask` ends: an early return from the empty-name
check, the catch block, or the complete success path. -/
inductive AddOutcome where
  | validationFailed : AddOutcome
  | requestFailed : AddOutcome
  | success : AddOutcome
deriving Repr, DecidableEq

/-- Classifies the ending of one run of `addTask` (see
`addTaskEvents` for the case analysis of the source). -/
def addOutcome (st : AppState) (resp : FetchResult) : AddOutcome :=
  if jsTrim st.taskInput = "" then .validationFailed
  else
    match resp with
    | .response s (.jsonArray (_ :: _)) =>
      if statusOk s then .success else .requestFailed
    | _ => .requestFailed

/-- Translation of the error handling of `completeTask`: the PATCH
request fails when the fetch promise rejects or the status is not ok;
the catch block only logs and alerts (the comment in the source marks
reverting the UI change as optional and leaves it unimplemented). -/
def completeTaskFails : FetchResult → Bool
  | .transportError => true
  | .response s _ => !statusOk s

/-- Translation of the click handler installed by `renderTask` on the
list item at position `i`, together with the `completeTask` call it
awaits.  The handler reads the new status as the negation of the
presence of the `completed` class, awaits `completeTask` (whose
exceptions never escape, see `completeTaskFails`), and then toggles the
`completed` class unconditionally, whether the PATCH succeeded or not.
The returned boolean records whether `completeTask` hit its catch
block. -/
def clickTask (st : AppState) (i : Nat) (resp : FetchResult) : AppState × Bool :=
  match st.taskList[i]? with
  | none => (st, false)
  | some t =>
    (⟨st.taskList.set i { t with is_completed := !t.is_completed }, st.taskInput⟩,
      completeTaskFails resp)

/-- One user-visible action against the client: typing into the input
field, a page reload of the list, submitting a new task, or clicking a
list item.  Each network-bound action carries the backend response it
gets. -/
inductive Op where
  | setInput : String → Op
  | reload : FetchResult → Op
  | add : FetchResult → Op
  | click : Nat → FetchResult → Op
deriving Repr, DecidableEq

/-- Applies one action to the client state. -/
def applyOp (st : AppState) : Op → AppState
  | .setInput s => ⟨st.taskList, s⟩
  | .reload r => (loadTasks st r).1
  | .add r => addTask st r
  | .click i r => (clickTask st i r).1

/-- Runs a sequence of actions from a starting state. -/
def runOps (st : AppState) (ops : List Op) : AppState :=
  ops.foldl applyOp st

/-- A backend that hands out distinct identifiers: every successfully
delivered task array has pairwise distinct ids, and the id of every
successfully created task is fresh with respect to the list rendered at
the moment of the add. -/
def opOk (st : AppState) : Op → Bool
  | .reload (.response s (.jsonArray ts)) =>
    !statusOk s || decide ((ts.map Task.id).Nodup)
  | .add (.response s (.jsonArray (t :: _))) =>
    !statusOk s || decide (t.id ∉ st.taskList.map Task.id)
  | _ => true

/-- `opOk` holds at every step of the action sequence. -/
def opsOk : AppState → List Op → Bool
  | _, [] => true
  | st, op :: rest => opOk st op && opsOk (applyOp st op) rest

/-- Whether an `addTask` event appends a task to the rendered list. -/
def isTaskAppended : AddEvent → Bool
  | .taskAppended _ => true
  | _ => false

/-- Responses on which `loadTasks` clears the rendered list before its
failure is detected: an ok status whose well-formed body is not an
array. -/
def clearsBeforeFailing : FetchResult → Bool
  | .response s (.objectTask _) => statusOk s
  | .response s .otherJson => statusOk s
  | _ => false

/-! Helper lemmas about single runs of the operations. -/

/-- A run of `addTask` that does not reach the success path leaves the
client state unchanged. -/
theorem addTask_not_success (st : AppState) (resp : FetchResult)
    (h : addOutcome st resp ≠ AddOutcome.success) :
    addTask st resp = st := by
  by_cases he : jsTrim st.taskInput = ""
  · simp [addTask, addTaskEvents, he]
  · cases resp with
    | transportError => simp [addTask, addTaskEvents, he, applyAddEvent]
    | response s body =>
      cases body with
      | jsonArray ts =>
        cases ts with
        | nil => simp [addTask, addTaskEvents, he, applyAddEvent]
        | cons t rest =>
          by_cases hs : statusOk s = true
          · exact absurd (by simp [addOutcome, he, hs]) h
          · simp [addTask, addTaskEvents, he, hs, applyAddEvent]
      | malformed => simp [addTask, addTaskEvents, he, applyAddEvent]
      | objectTask t => simp [addTask, addTaskEvents, he, applyAddEvent]
      | otherJson => simp [addTask, addTaskEvents, he, applyAddEvent]

/-- A run of `addTask` that does not reach the success path appends no
task at any point of its event trace. -/
theorem addTaskEvents_not_success (st : AppState) (resp : FetchResult)
    (h : addOutcome st resp ≠ AddOutcome.success) :
    (addTaskEvents st resp).filter isTaskAppended = [] := by
  by_cases he : jsTrim st.taskInput = ""
  · simp [addTaskEvents, he]
  · cases resp with
    | transportError => simp [addTaskEvents, he, isTaskAppended]
    | response s body =>
      cases body with
      | jsonArray ts =>
        cases ts with
        | nil => simp [addTaskEvents, he, isTaskAppended]
        | cons t rest =>
          by_cases hs : statusOk s = true
          · exact absurd (by simp [addOutcome, he, hs]) h
          · simp [addTaskEvents, he, hs, isTaskAppended]
      | malformed => simp [addTaskEvents, he, isTaskAppended]
      | objectTask t => simp [addTaskEvents, he, isTaskAppended]
      | otherJson => simp [addTaskEvents, he, isTaskAppended]

/-- A successful run of `addTask` appends exactly the first task of the
response array and clears the input. -/
theorem addTask_success_eq (st : AppState) (s : Nat) (t : Task) (rest : List Task)
    (he : jsTrim st.taskInput ≠ "") (hs : statusOk s = true) :
    addTask st (FetchResult.response s (JsonBody.jsonArray (t :: rest)))
      = ⟨st.taskList ++ [t], ""⟩ := by
  simp [addTask, addTaskEvents, he, hs, applyAddEvent]

/-- Inversion of a successful `addTask` outcome: the trimmed input was
non-empty and the response was an ok status with a non-empty task
array. -/
theorem addOutcome_success_elim (st : AppState) (resp : FetchResult)
    (h : addOutcome st resp = AddOutcome.success) :
    jsTrim st.taskInput ≠ ""
    ∧ ∃ s t rest, resp = FetchResult.response s (JsonBody.jsonArray (t :: rest))
        ∧ statusOk s = true := by
  by_cases he : jsTrim st.taskInput = ""
  · simp [addOutcome, he] at h
  · refine ⟨he, ?_⟩
    cases resp with
    | transportError => simp [addOutcome, he] at h
    | response s body =>
      cases body with
      | jsonArray ts =>
        cases ts with
        | nil => simp [addOutcome, he] at h
        | cons t rest =>
          by_cases hs : statusOk s = true
          · exact ⟨s, t, rest, rfl, hs⟩
          · simp [addOutcome, he, hs] at h
      | malformed => simp [addOutcome, he] at h
      | objectTask t => simp [addOutcome, he] at h
      | otherJson => simp [addOutcome, he] at h

/-- Flipping the completion flag of the entry at position `i` does not
change the list of identifiers. -/
theorem map_id_set (l : List Task) (i : Nat) (t : Task) (b : Bool)
    (h : l[i]? = some t) :
    (l.set i { t with is_completed := b }).map Task.id = l.map Task.id := by
  induction l generalizing i with
  | nil => simp at h
  | cons a l ih =>
    cases i with
    | zero =>
      simp only [List.getElem?_cons_zero, Option.some.injEq] at h
      subst h
      simp [List.set]
    | succ n =>
      simp only [List.getElem?_cons_succ] at h
      simp [List.set, ih n h]

/-- One action preserves distinctness of the rendered identifiers, as
long as the backend hands out distinct identifiers for it. -/
theorem applyOp_nodup (st : AppState) (op : Op)
    (h1 : (st.taskList.map Task.id).Nodup) (h2 : opOk st op = true) :
    ((applyOp st op).taskList.map Task.id).Nodup := by
  cases op with
  | setInput s => simpa [applyOp] using h1
  | reload r =>
    cases r with
    | transportError => simpa [applyOp, loadTasks] using h1
    | response s body =>
      by_cases hs : statusOk s = true
      · cases body with
        | malformed => simpa [applyOp, loadTasks, hs] using h1
        | jsonArray ts =>
          simp only [opOk, hs, Bool.not_true, Bool.false_or, decide_eq_true_eq] at h2
          simpa [applyOp, loadTasks, hs] using h2
        | objectTask t => simp [applyOp, loadTasks, hs]
        | otherJson => simp [applyOp, loadTasks, hs]
      · simpa [applyOp, loadTasks, hs] using h1
  | add r =>
    by_cases hsucc : addOutcome st r = AddOutcome.success
    · obtain ⟨he, s, t, rest, rfl, hs⟩ := addOutcome_success_elim st r hsucc
      have hfresh : t.id ∉ st.taskList.map Task.id := by
        simp only [opOk, hs, Bool.not_true, Bool.false_or, decide_eq_true_eq] at h2
        exact h2
      have hadd := addTask_success_eq st s t rest he hs
      simp only [applyOp, hadd, List.map_append, List.map_cons, List.map_nil]
      rw [← List.concat_eq_append]
      exact List.Nodup.concat hfresh h1
    · simpa [applyOp, addTask_not_success st r hsucc] using h1
  | click i r =>
    cases hg : st.taskList[i]? with
    | none => simpa [applyOp, clickTask, hg] using h1
    | some t => simpa [applyOp, clickTask, hg, map_id_set _ _ _ _ hg] using h1

/-! Claims. -/

/-- C1 counterexample: with the single task `t1` rendered uncompleted,
a click whose PATCH fails at transport level leaves the task displayed
as completed — the flip is not reverted — contradicting the claim that
a failed toggle restores the pre-toggle completion value. -/
theorem click_failure_not_reverted_counterexample :
    completeTaskFails FetchResult.transportError = true
    ∧ (clickTask ⟨[⟨"t1", "Buy milk", false⟩], ""⟩ 0 FetchResult.transportError).1.taskList
        = [⟨"t1", "Buy milk", true⟩]
    ∧ ¬ ((clickTask ⟨[⟨"t1", "Buy milk", false⟩], ""⟩ 0 FetchResult.transportError).1.taskList
        = [⟨"t1", "Buy milk", false⟩]) := by
  refine ⟨by decide, by decide, by decide⟩

/-- C1 (amended): when the PATCH issued by a click on the task at
position `i` fails, the displayed completion of that task still flips
to the negation of its pre-toggle value; the failure is only surfaced,
never rolled back. -/
theorem click_failure_flips (st : AppState) (i : Nat) (t : Task) (resp : FetchResult)
    (ht : st.taskList[i]? = some t) (hf : completeTaskFails resp = true) :
    (clickTask st i resp).1.taskList[i]? = some { t with is_completed := !t.is_completed }
    ∧ (clickTask st i resp).2 = true := by
  obtain ⟨hlt, -⟩ := List.getElem?_eq_some.mp ht
  constructor
  · simp [clickTask, ht, List.getElem?_set_eq_of_lt _ hlt]
  · simp [clickTask, ht, hf]

/-- Witness for `click_failure_flips` at a concrete state and failing
response. -/
theorem click_failure_flips_witness :
    ((⟨[⟨"t1", "Buy milk", false⟩], ""⟩ : AppState).taskList[0]?
        = some ⟨"t1", "Buy milk", false⟩)
    ∧ ((clickTask ⟨[⟨"t1", "Buy milk", false⟩], ""⟩ 0 FetchResult.transportError).1.taskList[0]?
          = some ⟨"t1", "Buy milk", true⟩
        ∧ (clickTask ⟨[⟨"t1", "Buy milk", false⟩], ""⟩ 0 FetchResult.transportError).2 = true) := by
  refine ⟨by decide, ?_⟩
  have h := click_failure_flips ⟨[⟨"t1", "Buy milk", false⟩], ""⟩ 0 ⟨"t1", "Buy milk", false⟩
      FetchResult.transportError (by decide) (by decide)
  simpa using h

/-- C2 counterexample: Add on an empty store with a failing createTask
issues the request but never inserts anything: its event trace contains
no append at all, in particular none before the request, so no
placeholder Task is ever put in the store, contradicting the claimed
optimistic insertion. -/
theorem add_no_placeholder_counterexample :
    addTaskEvents ⟨[], "Buy milk"⟩ FetchResult.transportError
        = [AddEvent.requestIssued "Buy milk" false]
    ∧ (addTaskEvents ⟨[], "Buy milk"⟩ FetchResult.transportError).filter isTaskAppended = []
    ∧ addTask ⟨[], "Buy milk"⟩ FetchResult.transportError = ⟨[], "Buy milk"⟩ := by
  refine ⟨by decide, by decide, by decide⟩

/-- C2 (amended): Add never inserts a placeholder — no append event
occurs in a run that does not reach the success path — and a failed Add
leaves the whole state, hence the task count, exactly at its pre-Add
value. -/
theorem add_failure_frame (st : AppState) (resp : FetchResult)
    (h : addOutcome st resp ≠ AddOutcome.success) :
    (addTaskEvents st resp).filter isTaskAppended = []
    ∧ addTask st resp = st
    ∧ (addTask st resp).taskList.length = st.taskList.length := by
  refine ⟨addTaskEvents_not_success st resp h, addTask_not_success st resp h, ?_⟩
  rw [addTask_not_success st resp h]

/-- Witness for `add_failure_frame` at a concrete state and a 500
response. -/
theorem add_failure_frame_witness :
    ((addTaskEvents ⟨[⟨"t0", "a", true⟩], "Buy milk"⟩
          (FetchResult.response 500 JsonBody.malformed)).filter isTaskAppended = []
      ∧ addTask ⟨[⟨"t0", "a", true⟩], "Buy milk"⟩ (FetchResult.response 500 JsonBody.malformed)
          = ⟨[⟨"t0", "a", true⟩], "Buy milk"⟩
      ∧ (addTask ⟨[⟨"t0", "a", true⟩], "Buy milk"⟩
          (FetchResult.response 500 JsonBody.malformed)).taskList.length
          = (⟨[⟨"t0", "a", true⟩], "Buy milk"⟩ : AppState).taskList.length) := by
  exact add_failure_frame ⟨[⟨"t0", "a", true⟩], "Buy milk"⟩
    (FetchResult.response 500 JsonBody.malformed) (by decide)

/-- C3 counterexample: a successful createTask response whose body is
the single created object, not wrapped in an array, is rejected by the
client — the array destructuring throws — so the created task is not
adopted and the add ends in its catch block, contradicting the claim
that both response shapes are accepted. -/
theorem add_single_object_counterexample :
    addOutcome ⟨[], "Buy milk"⟩
        (FetchResult.response 201 (JsonBody.objectTask ⟨"t1", "Buy milk", false⟩))
      = AddOutcome.requestFailed
    ∧ addTask ⟨[], "Buy milk"⟩
        (FetchResult.response 201 (JsonBody.objectTask ⟨"t1", "Buy milk", false⟩))
      = ⟨[], "Buy milk"⟩ := by
  refine ⟨by decide, by decide⟩

/-- C3 (amended): of the two createTask response shapes the client
accepts only the JSON array, adopting its element 0; a single
task-shaped JSON object makes the add fail with the store unchanged. -/
theorem add_array_only (st : AppState) (s : Nat) (t : Task) (rest : List Task)
    (he : jsTrim st.taskInput ≠ "") (hs : statusOk s = true) :
    addTask st (FetchResult.response s (JsonBody.jsonArray (t :: rest)))
        = ⟨st.taskList ++ [t], ""⟩
    ∧ addTask st (FetchResult.response s (JsonBody.objectTask t)) = st
    ∧ addOutcome st (FetchResult.response s (JsonBody.objectTask t))
        = AddOutcome.requestFailed := by
  refine ⟨addTask_success_eq st s t rest he hs, ?_, ?_⟩
  · exact addTask_not_success st _ (by simp [addOutcome, he])
  · simp [addOutcome, he]

/-- Witness for `add_array_only` at a concrete state, status 201 and
server task. -/
theorem add_array_only_witness :
    (addTask ⟨[], "Buy milk"⟩
          (FetchResult.response 201 (JsonBody.jsonArray [⟨"t1", "Buy milk", false⟩]))
        = ⟨[⟨"t1", "Buy milk", false⟩], ""⟩
      ∧ addTask ⟨[], "Buy milk"⟩
          (FetchResult.response 201 (JsonBody.objectTask ⟨"t1", "Buy milk", false⟩))
        = ⟨[], "Buy milk"⟩
      ∧ addOutcome ⟨[], "Buy milk"⟩
          (FetchResult.response 201 (JsonBody.objectTask ⟨"t1", "Buy milk", false⟩))
        = AddOutcome.requestFailed) := by
  have h := add_array_only ⟨[], "Buy milk"⟩ 201 ⟨"t1", "Buy milk", false⟩ []
    (by decide) (by decide)
  simpa using h

/-- C4 counterexample: a reload answered with status 200 and a
well-formed body that is a single JSON object fails, yet the previously
displayed task is gone: the list was cleared before the failure was
detected, contradicting the claim that a failed reload changes
nothing. -/
theorem reload_failure_clears_counterexample :
    (loadTasks ⟨[⟨"t1", "Buy milk", false⟩], ""⟩
        (FetchResult.response 200 (JsonBody.objectTask ⟨"t2", "b", false⟩))).2 = true
    ∧ (loadTasks ⟨[⟨"t1", "Buy milk", false⟩], ""⟩
        (FetchResult.response 200 (JsonBody.objectTask ⟨"t2", "b", false⟩))).1.taskList = []
    ∧ ¬ ((loadTasks ⟨[⟨"t1", "Buy milk", false⟩], ""⟩
        (FetchResult.response 200 (JsonBody.objectTask ⟨"t2", "b", false⟩))).1
          = ⟨[⟨"t1", "Buy milk", false⟩], ""⟩) := by
  refine ⟨by decide, by decide, by decide⟩

/-- C4 (amended): a failed reload leaves the client state exactly as it
was whenever the failure is a transport error, a non-success status or
a malformed body; but when an ok response carries well-formed JSON that
is not an array, the displayed list has already been cleared when the
failure hits, leaving the list empty. -/
theorem reload_failure_frame (st : AppState) (resp : FetchResult)
    (h : (loadTasks st resp).2 = true) :
    (loadTasks st resp).1
      = if clearsBeforeFailing resp then ⟨[], st.taskInput⟩ else st := by
  cases resp with
  | transportError => simp [loadTasks, clearsBeforeFailing]
  | response s body =>
    by_cases hs : statusOk s = true
    · cases body with
      | malformed => simp [loadTasks, clearsBeforeFailing, hs]
      | jsonArray ts => simp [loadTasks, hs] at h
      | objectTask t => simp [loadTasks, clearsBeforeFailing, hs]
      | otherJson => simp [loadTasks, clearsBeforeFailing, hs]
    · cases body <;> simp [loadTasks, clearsBeforeFailing, hs]

/-- Witness for `reload_failure_frame` at a concrete state and a
transport failure. -/
theorem reload_failure_frame_witness :
    (loadTasks ⟨[⟨"t1", "Buy milk", false⟩], "x"⟩ FetchResult.transportError).2 = true
    ∧ (loadTasks ⟨[⟨"t1", "Buy milk", false⟩], "x"⟩ FetchResult.transportError).1
        = if clearsBeforeFailing FetchResult.transportError
            then ⟨[], (⟨[⟨"t1", "Buy milk", false⟩], "x"⟩ : AppState).taskInput⟩
            else ⟨[⟨"t1", "Buy milk", false⟩], "x"⟩ := by
  refine ⟨by decide, ?_⟩
  exact reload_failure_frame ⟨[⟨"t1", "Buy milk", false⟩], "x"⟩ FetchResult.transportError
    (by decide)

/-- C5: when the trimmed input is empty, Add returns before doing
anything: no event occurs at all — in particular no createTask request
is issued — and the state is unchanged, whatever the backend would have
answered. -/
theorem add_empty_name_no_request (st : AppState) (resp : FetchResult)
    (he : jsTrim st.taskInput = "") :
    addTaskEvents st resp = [] ∧ addTask st resp = st := by
  constructor
  · simp [addTaskEvents, he]
  · simp [addTask, addTaskEvents, he]

/-- Witness for `add_empty_name_no_request` at a whitespace-only input
and a backend that would have answered successfully. -/
theorem add_empty_name_no_request_witness :
    (addTaskEvents ⟨[⟨"t1", "a", false⟩], "   "⟩
        (FetchResult.response 201 (JsonBody.jsonArray [⟨"t2", "b", false⟩])) = []
      ∧ addTask ⟨[⟨"t1", "a", false⟩], "   "⟩
          (FetchResult.response 201 (JsonBody.jsonArray [⟨"t2", "b", false⟩]))
        = ⟨[⟨"t1", "a", false⟩], "   "⟩) := by
  exact add_empty_name_no_request ⟨[⟨"t1", "a", false⟩], "   "⟩
    (FetchResult.response 201 (JsonBody.jsonArray [⟨"t2", "b", false⟩])) (by decide)

/-- C6: on every successful Add, from an arbitrary prior store, the
task this Add stores is precisely the one returned by createTask — it
is appended last, carrying exactly the server-assigned identifier — and
the identifier list gains only that server identifier, so no other
(temporary) identifier is ever present.  In particular, on an empty
store the final store holds exactly the created task. -/
theorem add_adopts_server_id (st : AppState) (s : Nat) (t : Task) (rest : List Task)
    (he : jsTrim st.taskInput ≠ "") (hs : statusOk s = true) :
    addTask st (FetchResult.response s (JsonBody.jsonArray (t :: rest)))
        = ⟨st.taskList ++ [t], ""⟩
    ∧ (addTask st
        (FetchResult.response s (JsonBody.jsonArray (t :: rest)))).taskList.getLast?
        = some t
    ∧ (addTask st
        (FetchResult.response s (JsonBody.jsonArray (t :: rest)))).taskList.map Task.id
        = st.taskList.map Task.id ++ [t.id] := by
  have h := addTask_success_eq st s t rest he hs
  refine ⟨h, ?_, ?_⟩
  · rw [h]
    exact List.getLast?_append_cons st.taskList t []
  · rw [h]
    simp

/-- Witness for `add_adopts_server_id` at the specified scenario:
Add of "Buy milk" on an empty store with the backend returning the
created task `t1` leaves exactly that one task stored. -/
theorem add_adopts_server_id_witness :
    (addTask ⟨[], "Buy milk"⟩
        (FetchResult.response 200 (JsonBody.jsonArray [⟨"t1", "Buy milk", false⟩]))
      = ⟨[⟨"t1", "Buy milk", false⟩], ""⟩
    ∧ (addTask ⟨[], "Buy milk"⟩
        (FetchResult.response 200 (JsonBody.jsonArray [⟨"t1", "Buy milk", false⟩]))).taskList.getLast?
      = some ⟨"t1", "Buy milk", false⟩
    ∧ (addTask ⟨[], "Buy milk"⟩
        (FetchResult.response 200 (JsonBody.jsonArray [⟨"t1", "Buy milk", false⟩]))).taskList.map Task.id
      = ["t1"]) := by
  have h := add_adopts_server_id ⟨[], "Buy milk"⟩ 200 ⟨"t1", "Buy milk", false⟩ []
    (by decide) (by decide)
  simpa using h

/-- C7: reload is idempotent and order preserving: with an identical
successful backend response, the rendered list equals the response
array, in its order, after the first reload and again after the
second. -/
theorem reload_idempotent (st : AppState) (s : Nat) (ts : List Task)
    (hs : statusOk s = true) :
    (loadTasks st (FetchResult.response s (JsonBody.jsonArray ts))).1.taskList = ts
    ∧ (loadTasks (loadTasks st (FetchResult.response s (JsonBody.jsonArray ts))).1
        (FetchResult.response s (JsonBody.jsonArray ts))).1.taskList = ts := by
  constructor <;> simp [loadTasks, hs]

/-- Witness for `reload_idempotent` at a concrete state and a two-task
response. -/
theorem reload_idempotent_witness :
    ((loadTasks ⟨[⟨"t0", "old", true⟩], "x"⟩
        (FetchResult.response 200 (JsonBody.jsonArray [⟨"t1", "a", false⟩, ⟨"t2", "b", true⟩]))).1.taskList
      = [⟨"t1", "a", false⟩, ⟨"t2", "b", true⟩]
    ∧ (loadTasks (loadTasks ⟨[⟨"t0", "old", true⟩], "x"⟩
          (FetchResult.response 200 (JsonBody.jsonArray [⟨"t1", "a", false⟩, ⟨"t2", "b", true⟩]))).1
        (FetchResult.response 200 (JsonBody.jsonArray [⟨"t1", "a", false⟩, ⟨"t2", "b", true⟩]))).1.taskList
      = [⟨"t1", "a", false⟩, ⟨"t2", "b", true⟩]) := by
  exact reload_idempotent ⟨[⟨"t0", "old", true⟩], "x"⟩ 200
    [⟨"t1", "a", false⟩, ⟨"t2", "b", true⟩] (by decide)

/-- C8: starting from an empty rendered list, any sequence of input
edits, reloads, adds and clicks keeps the task identifiers in the store
pairwise distinct, provided the backend hands out distinct identifiers:
every successfully delivered array is duplicate-free and every
successfully created identifier is fresh for the current list. -/
theorem store_ids_nodup (inp : String) (ops : List Op)
    (h : opsOk ⟨[], inp⟩ ops = true) :
    ((runOps ⟨[], inp⟩ ops).taskList.map Task.id).Nodup := by
  suffices general : ∀ (l : List Op) (st : AppState),
      (st.taskList.map Task.id).Nodup → opsOk st l = true →
      ((runOps st l).taskList.map Task.id).Nodup by
    exact general ops ⟨[], inp⟩ (by simp) h
  intro l
  induction l with
  | nil =>
    intro st h1 _
    simpa [runOps] using h1
  | cons op rest ih =>
    intro st h1 h2
    simp only [opsOk, Bool.and_eq_true] at h2
    have hstep := applyOp_nodup st op h1 h2.1
    simpa [runOps] using ih (applyOp st op) hstep h2.2

/-- Witness for `store_ids_nodup` on a concrete action sequence mixing
typing, a successful add, a failed click and a reload. -/
theorem store_ids_nodup_witness :
    opsOk ⟨[], ""⟩
        [Op.setInput "Buy milk",
          Op.add (FetchResult.response 201 (JsonBody.jsonArray [⟨"t1", "Buy milk", false⟩])),
          Op.click 0 FetchResult.transportError,
          Op.reload (FetchResult.response 200
            (JsonBody.jsonArray [⟨"t1", "a", true⟩, ⟨"t2", "b", false⟩]))] = true
    ∧ ((runOps ⟨[], ""⟩
        [Op.setInput "Buy milk",
          Op.add (FetchResult.response 201 (JsonBody.jsonArray [⟨"t1", "Buy milk", false⟩])),
          Op.click 0 FetchResult.transportError,
          Op.reload (FetchResult.response 200
            (JsonBody.jsonArray [⟨"t1", "a", true⟩, ⟨"t2", "b", false⟩]))]).taskList.map Task.id).Nodup := by
  refine ⟨by decide, ?_⟩
  exact store_ids_nodup ""
    [Op.setInput "Buy milk",
      Op.add (FetchResult.response 201 (JsonBody.jsonArray [⟨"t1", "Buy milk", false⟩])),
      Op.click 0 FetchResult.transportError,
      Op.reload (FetchResult.response 200
        (JsonBody.jsonArray [⟨"t1", "a", true⟩, ⟨"t2", "b", false⟩]))] (by decide)

/-- C10: Add clears the input field only on success — on a validation
or request failure both the input value and the rendered list are left
untouched — and on success it only appends: every previously rendered
task is preserved unmodified at its position. -/
theorem add_input_frame (st : AppState) (resp : FetchResult) :
    (addOutcome st resp = AddOutcome.success →
      (addTask st resp).taskInput = ""
      ∧ (addTask st resp).taskList.take st.taskList.length = st.taskList)
    ∧ (addOutcome st resp ≠ AddOutcome.success →
      (addTask st resp).taskInput = st.taskInput
      ∧ (addTask st resp).taskList = st.taskList) := by
  constructor
  · intro h
    obtain ⟨he, s, t, rest, rfl, hs⟩ := addOutcome_success_elim st resp h
    rw [addTask_success_eq st s t rest he hs]
    exact ⟨rfl, by simp [List.take_left]⟩
  · intro h
    rw [addTask_not_success st resp h]
    exact ⟨rfl, rfl⟩

/-- Witness for `add_input_frame`: the success branch at a concrete
successful add and the failure branch at a concrete transport
failure. -/
theorem add_input_frame_witness :
    ((addTask ⟨[⟨"t0", "a", true⟩], "Buy milk"⟩
          (FetchResult.response 201 (JsonBody.jsonArray [⟨"t1", "Buy milk", false⟩]))).taskInput = ""
      ∧ (addTask ⟨[⟨"t0", "a", true⟩], "Buy milk"⟩
          (FetchResult.response 201
            (JsonBody.jsonArray [⟨"t1", "Buy milk", false⟩]))).taskList.take 1
        = [⟨"t0", "a", true⟩])
    ∧ ((addTask ⟨[⟨"t0", "a", true⟩], "Buy milk"⟩ FetchResult.transportError).taskInput
        = "Buy milk"
      ∧ (addTask ⟨[⟨"t0", "a", true⟩], "Buy milk"⟩ FetchResult.transportError).taskList
        = [⟨"t0", "a", true⟩]) := by
  constructor
  · have h := (add_input_frame ⟨[⟨"t0", "a", true⟩], "Buy milk"⟩
      (FetchResult.response 201 (JsonBody.jsonArray [⟨"t1", "Buy milk", false⟩]))).1 (by decide)
    simpa using h
  · have h := (add_input_frame ⟨[⟨"t0", "a", true⟩], "Buy milk"⟩
      FetchResult.transportError).2 (by decide)
    simpa using h

end TaskApp
